import Mathlib

/-!
Shallow embedding of `src/pypomes_s3/minio_pomes.py` (the MinIO facade of
PyPomes-Store).  The underlying MinIO client is an external collaborator: each
of its calls is modelled by an outcome parameter of type `Except Exc _`
(`.ok` = the call returned, `.error e` = the call raised exception `e`).
Every operation threads the caller-supplied mutable `errors` list explicitly:
the Python `errors.append`/`errors.extend` mutations become a returned list.
All operations are modelled at the point where a client has been obtained
(the claims under study all concern that regime).
-/

namespace PyPomesStore

/-- An exception raised by the underlying MinIO client.  Python inspects
`hasattr(e, "code")` and `e.code`; `code = none` models an exception without
a `code` attribute. -/
structure Exc where
  code : Option String
deriving DecidableEq, Repr

/-- Mirrors the Python guard `hasattr(e, "code") and e.code == "NoSuchKey"`
(the negation of the guard on the `except` branches that skip reporting). -/
def isNoSuchKey (e : Exc) : Bool :=
  e.code = some "NoSuchKey"

/-- Modelled from the spec: `_s3_except_msg` (defined in `s3_common`, which is
not under `src/`) re-renders a caught exception as a single descriptive string
and appends it to the caller-supplied error list.  Here we produce the rendered
string; the callers below perform the append. -/
def excMsg (e : Exc) : String :=
  String.append "minio error, code " (Option.getD e.code "none")

/-- Mirrors `Path(basepath) / identifier` followed by `f"{remotepath}"` for a
non-None identifier (slash-join of the two components). -/
def pathJoin (basepath identifier : String) : String :=
  String.append basepath (String.append "/" identifier)

/-- The Python fault raised by the interpreter itself (uncaught by the code):
`Path(basepath) / None` and `next(None, None)` both raise `TypeError`. -/
inductive PyFault
  | typeError
deriving DecidableEq, Repr

/-- A descriptor yielded by `list_objects`; the code only ever consumes its
`object_name` field. -/
structure MinioObject where
  object_name : String
deriving DecidableEq, Repr

/-- A stored object at the remote store: byte stream, content type, and the
optional tag map attached at `fput_object` time. -/
structure StoredObject where
  data : List Nat
  content_type : String
  tags : Option (List (String × String))
deriving DecidableEq, Repr

/-- The remote store's state: an association from (bucket, remote path) to the
stored object. -/
abbrev S3State := List ((String × String) × StoredObject)

/-- Look an object up in the store state. -/
def stGet : S3State → (String × String) → Option StoredObject
  | [], _ => none
  | kv :: rest, key => if kv.1 = key then some kv.2 else stGet rest key

/-- Overwrite/insert an object in the store state (last-writer-wins). -/
def stPut (st : S3State) (key : String × String) (o : StoredObject) : S3State :=
  (key, o) :: st

/-- Modelled from the spec: the external `unidecode` library normalizes text
"by removing all diacritics" (comment at the tag loop of `_file_store`).
Modelled character-wise on the Latin letters with diacritics, identity
elsewhere. -/
def unidecodeChar (c : Char) : Char :=
  if c = 'á' ∨ c = 'à' ∨ c = 'â' ∨ c = 'ã' ∨ c = 'ä' then 'a'
  else if c = 'é' ∨ c = 'è' ∨ c = 'ê' ∨ c = 'ë' then 'e'
  else if c = 'í' ∨ c = 'ì' ∨ c = 'î' ∨ c = 'ï' then 'i'
  else if c = 'ó' ∨ c = 'ò' ∨ c = 'ô' ∨ c = 'õ' ∨ c = 'ö' then 'o'
  else if c = 'ú' ∨ c = 'ù' ∨ c = 'û' ∨ c = 'ü' then 'u'
  else if c = 'ç' then 'c'
  else c

/-- `unidecode` applied to a whole string (character-wise map). -/
def unidecode (s : String) : String :=
  ⟨s.data.map unidecodeChar⟩

/-- Embeds `_access`: constructing the `Minio` client either succeeds (client
obtained, `true`) or raises, in which case the exception is rendered and
appended and no client is returned (`false`). -/
def _access (outcome : Except Exc Unit) (errors : List String) :
    Bool × List String :=
  match outcome with
  | .ok _ => (true, errors)
  | .error e => (false, errors ++ [excMsg e])

/-- Embeds `_startup`: obtain a client via `_access`; if obtained, run the
`bucket_exists`/`make_bucket` provisioning step, whose outcome is
`provisionOutcome`; result is `true` exactly when provisioning completed. -/
def _startup (accessOutcome provisionOutcome : Except Exc Unit)
    (errors : List String) : Bool × List String :=
  let (clientOk, errs) := _access accessOutcome errors
  if clientOk then
    match provisionOutcome with
    | .ok _ => (true, errs)
    | .error e => (false, errs ++ [excMsg e])
  else
    (false, errs)

/-- Embeds `_file_store` (client obtained): computes `doc_tags` (no tags when
the map is `None` or empty, otherwise each value passes through `unidecode`),
then calls `fput_object`.  On success the object is stored at
(bucket, basepath/identifier) and the result is `true`; any exception is
rendered and appended and the result stays `false`. -/
def _file_store (st : S3State) (bucket basepath identifier : String)
    (fileData : List Nat) (mimetype : String)
    (tags : Option (List (String × String)))
    (fput : Except Exc Unit) (errors : List String) :
    Bool × S3State × List String :=
  let remotepath := pathJoin basepath identifier
  let doc_tags : Option (List (String × String)) :=
    match tags with
    | none => none
    | some ts =>
        if ts.length = 0 then none
        else some (ts.map (fun kv => (kv.1, unidecode kv.2)))
  match fput with
  | .ok _ =>
      (true, stPut st (bucket, remotepath) ⟨fileData, mimetype, doc_tags⟩, errors)
  | .error e => (false, st, errors ++ [excMsg e])

/-- Embeds `_file_retrieve` (client obtained): `fget_object` either returns
the stat of the downloaded object or raises; a raised `NoSuchKey` is swallowed
(result `none`, nothing appended), any other exception is rendered and
appended (result `none`). -/
def _file_retrieve (outcome : Except Exc StoredObject) (errors : List String) :
    Option StoredObject × List String :=
  match outcome with
  | .ok so => (some so, errors)
  | .error e =>
      (none, if isNoSuchKey e then errors else errors ++ [excMsg e])

/-- Embeds `_object_stat` (client obtained): `stat_object` either returns the
object's metadata or raises; `NoSuchKey` is swallowed, any other exception is
rendered and appended. -/
def _object_stat (outcome : Except Exc MinioObject) (errors : List String) :
    Option MinioObject × List String :=
  match outcome with
  | .ok o => (some o, errors)
  | .error e =>
      (none, if isNoSuchKey e then errors else errors ++ [excMsg e])

/-- Embeds `_objects_list` (client obtained): `list_objects` either returns
the listing or raises; any exception is rendered and appended and the result
is `None`. -/
def _objects_list (outcome : Except Exc (List MinioObject))
    (errors : List String) : Option (List MinioObject) × List String :=
  match outcome with
  | .ok objs => (some objs, errors)
  | .error e => (none, errors ++ [excMsg e])

/-- The boolean computed by the folder branch of `_object_exists`:
`result = next(objs, None) is None`, i.e. `true` exactly when the listing
yielded no descriptor. -/
def folderExistsFlag (objs : List MinioObject) : Bool :=
  objs.head?.isNone

/-- Embeds `_object_exists` (client obtained).  With `identifier = none` the
folder branch runs: it lists the prefix non-recursively, and
  * when the listing failed (`objs` is `None`), `next(objs, None)` raises an
    uncaught `TypeError` (`None` is not an iterator);
  * otherwise `result = next(objs, None) is None` is computed, and then the
    unconditional `remotepath = Path(basepath) / identifier` joins the base
    path with `None`, raising an uncaught `TypeError`.
With an identifier, the object's stat decides the result and the path join
succeeds. -/
def _object_exists (basepath : String) (identifier : Option String)
    (listOutcome : Except Exc (List MinioObject))
    (statOutcome : Except Exc MinioObject)
    (errors : List String) : Except PyFault (Bool × List String) :=
  match identifier with
  | none =>
      let (objs, _errs) := _objects_list listOutcome errors
      match objs with
      | none => .error .typeError
      | some l =>
          let _result := folderExistsFlag l
          .error .typeError
  | some _ident =>
      let (stat, errs) := _object_stat statOutcome errors
      .ok (stat.isSome, errs)

/-- The outcome of `fget_object` as determined by the store state: the stored
object when present, a raised `NoSuchKey` exception when absent. -/
def fgetOutcome (st : S3State) (key : String × String) :
    Except Exc StoredObject :=
  match stGet st key with
  | some o => .ok o
  | none => .error ⟨some "NoSuchKey"⟩

/-- The outcome of `get_object_tags` as determined by the store state: the
stored object's tag map when the object is present, a raised `NoSuchKey`
exception when absent. -/
def tagsOutcomeOf (st : S3State) (key : String × String) :
    Except Exc (Option (List (String × String))) :=
  match stGet st key with
  | some o => .ok o.tags
  | none => .error ⟨some "NoSuchKey"⟩

/-- Embeds `_object_tags_retrieve` (client obtained): `get_object_tags`
either returns the tag map or raises; a returned map is copied into the result
only when non-empty (`if tags and len(tags) > 0`); `NoSuchKey` is swallowed,
any other exception is rendered and appended. -/
def _object_tags_retrieve
    (outcome : Except Exc (Option (List (String × String))))
    (errors : List String) :
    Option (List (String × String)) × List String :=
  match outcome with
  | .ok tags =>
      (match tags with
       | none => none
       | some ts => if ts.length = 0 then none else some ts, errors)
  | .error e =>
      (none, if isNoSuchKey e then errors else errors ++ [excMsg e])

/-- The result of `_object_store`: the returned boolean, the store state, the
caller's error list after the call, and whether the uniquely-named temporary
local file created for serialization is still on disk afterwards. -/
structure StoreOutcome where
  result : Bool
  state : S3State
  errors : List String
  temp_file_on_disk : Bool
deriving Repr

/-- Embeds `_object_store` (client obtained): serializes `obj` with `dump`
(`pickle.dump` to a fresh temporary file), uploads it via `_file_store` with
mimetype `application/octet-stream` against a fresh `op_errors` list; when
`op_errors` is non-empty those errors are extended onto the caller's list and
the result stays `false` (temp file left on disk); otherwise the result is
`true` and the temp file is unlinked. -/
def _object_store {α : Type} (st : S3State)
    (bucket basepath identifier : String)
    (dump : α → List Nat) (obj : α)
    (tags : Option (List (String × String)))
    (fput : Except Exc Unit) (errors : List String) : StoreOutcome :=
  let r := _file_store st bucket basepath identifier (dump obj)
    "application/octet-stream" tags fput []
  let op_errors := r.2.2
  if op_errors.length = 0 then
    { result := true, state := r.2.1, errors := errors,
      temp_file_on_disk := false }
  else
    { result := false, state := r.2.1, errors := errors ++ op_errors,
      temp_file_on_disk := true }

/-- Embeds `_object_retrieve` (client obtained): downloads the serialized file
via `_file_retrieve` (outcome determined by the store state); when a stat was
returned, deserializes the downloaded bytes with `load` (`pickle.load`). -/
def _object_retrieve {α : Type} (st : S3State)
    (bucket basepath identifier : String)
    (load : List Nat → Option α) (errors : List String) :
    Option α × List String :=
  let (stat, errs) :=
    _file_retrieve (fgetOutcome st (bucket, pathJoin basepath identifier)) errors
  match stat with
  | some o => (load o.data, errs)
  | none => (none, errs)

/-- The per-descriptor loop of `__folder_delete`: for each descriptor, calls
`remove_object(obj.object_name)` (appended to `calls` in traversal order);
a raised `NoSuchKey` is swallowed, any other exception is rendered and
appended; the traversal never halts early.  Returns the error list and the
sequence of remove calls issued. -/
def folderRemoveLoop (removeOutcome : String → Except Exc Unit) :
    List MinioObject → List String → List String → List String × List String
  | [], errors, calls => (errors, calls)
  | obj :: rest, errors, calls =>
      let calls' := calls ++ [obj.object_name]
      match removeOutcome obj.object_name with
      | .ok _ => folderRemoveLoop removeOutcome rest errors calls'
      | .error e =>
          folderRemoveLoop removeOutcome rest
            (if isNoSuchKey e then errors else errors ++ [excMsg e]) calls'

/-- Embeds `__folder_delete`: obtains the recursive listing via
`_objects_list`; when the listing was obtained (`if objs:`), runs the
remove loop over it (a successfully returned listing iterator is truthy in
Python even when it yields nothing).  Returns the error list and the sequence
of remove calls issued. -/
def __folder_delete (listOutcome : Except Exc (List MinioObject))
    (removeOutcome : String → Except Exc Unit) (errors : List String) :
    List String × List String :=
  let (objs, errs) := _objects_list listOutcome errors
  match objs with
  | none => (errs, [])
  | some l => folderRemoveLoop removeOutcome l errs []

/-- Embeds `_object_delete` (client obtained).  With `identifier = none` the
folder branch delegates to `__folder_delete` and the result variable is never
assigned (stays `false`).  With an identifier, `remove_object` on the joined
path either succeeds (`true`) or raises: `NoSuchKey` is swallowed (result
stays `false`, nothing appended), any other exception is rendered and
appended. -/
def _object_delete (basepath : String) (identifier : Option String)
    (listOutcome : Except Exc (List MinioObject))
    (removeOutcome : String → Except Exc Unit)
    (errors : List String) : Bool × List String :=
  match identifier with
  | none => (false, (__folder_delete listOutcome removeOutcome errors).1)
  | some ident =>
      match removeOutcome (pathJoin basepath ident) with
      | .ok _ => (true, errors)
      | .error e =>
          (false, if isNoSuchKey e then errors else errors ++ [excMsg e])

/-- Looking up the key just written returns the object just written. -/
theorem stGet_stPut_self (st : S3State) (key : String × String)
    (o : StoredObject) : stGet (stPut st key o) key = some o := by
  simp [stPut, stGet]

/-- The error string appended for one descriptor of the folder-delete loop:
`none` when the remove call succeeded or raised `NoSuchKey`, otherwise the
rendered exception. -/
def removeFailureMsg (removeOutcome : String → Except Exc Unit)
    (o : MinioObject) : Option String :=
  match removeOutcome o.object_name with
  | .ok _ => none
  | .error e => if isNoSuchKey e then none else some (excMsg e)

/-- Closed form of the folder-delete loop: it appends exactly the rendered
non-`NoSuchKey` failures to the error list, and issues one remove call per
descriptor, in order. -/
theorem folderRemoveLoop_spec (removeOutcome : String → Except Exc Unit)
    (objs : List MinioObject) (errors calls : List String) :
    folderRemoveLoop removeOutcome objs errors calls
      = (errors ++ objs.filterMap (removeFailureMsg removeOutcome),
         calls ++ objs.map (fun o => o.object_name)) := by
  induction objs generalizing errors calls with
  | nil => simp [folderRemoveLoop]
  | cons obj rest ih =>
      cases h : removeOutcome obj.object_name with
      | ok u => simp [folderRemoveLoop, h, ih, removeFailureMsg]
      | error e =>
          cases hn : isNoSuchKey e <;>
            simp [folderRemoveLoop, h, ih, removeFailureMsg, hn]

/-- C1 (code bug): the claim states that `_object_exists` with the identifier
omitted returns `true` iff the non-recursive listing of the prefix yields at
least one descriptor.  At a concrete prefix whose listing yields exactly one
descriptor, the embedded code instead raises an uncaught `TypeError` (from
joining the base path with the `None` identifier) and never returns; moreover
the boolean the folder branch computes before raising, `folderExistsFlag`, is
the emptiness test inverted: `false` on the one-descriptor listing and `true`
on the empty listing. -/
theorem object_exists_folder_inverted_and_crashes :
    _object_exists "docs" none (Except.ok [⟨"docs/a.txt"⟩])
        (Except.ok ⟨"docs/a.txt"⟩) [] = Except.error PyFault.typeError
    ∧ folderExistsFlag [⟨"docs/a.txt"⟩] = false
    ∧ folderExistsFlag [] = true :=
  ⟨rfl, rfl, rfl⟩

/-- C8: for every base path, listing outcome, stat outcome and initial error
list, `_object_exists` with `identifier = none` never returns normally once a
client is obtained: when the listing failed the folder branch raises
`TypeError` by iterating `None`, and otherwise the unconditional path join
with the `None` identifier raises `TypeError`. -/
theorem object_exists_folder_never_returns (basepath : String)
    (listOutcome : Except Exc (List MinioObject))
    (statOutcome : Except Exc MinioObject) (errors : List String) :
    _object_exists basepath none listOutcome statOutcome errors
      = Except.error PyFault.typeError := by
  cases listOutcome <;> rfl

/-- C2: for the single-object branch of `_object_delete`, a remove call that
raises `NoSuchKey` appends nothing to the caller's error list, and the return
value is `true` exactly when the remove call completed without exception, so
the not-found-skip case returns `false` (any other exception is rendered and
appended, with the result also `false`). -/
theorem object_delete_single_semantics (basepath ident : String) (e : Exc)
    (listOutcome : Except Exc (List MinioObject))
    (removeOutcome : String → Except Exc Unit) (errors : List String) :
    _object_delete basepath (some ident) listOutcome
        (fun _ => Except.ok ()) errors = (true, errors)
    ∧ _object_delete basepath (some ident) listOutcome
        (fun _ => Except.error e) errors
      = (false, if isNoSuchKey e then errors else errors ++ [excMsg e])
    ∧ _object_delete basepath (some ident) listOutcome
        (fun _ => Except.error ⟨some "NoSuchKey"⟩) errors = (false, errors)
    ∧ ((_object_delete basepath (some ident) listOutcome removeOutcome
          errors).1 = true
        ↔ removeOutcome (pathJoin basepath ident) = Except.ok ()) := by
  refine ⟨rfl, rfl, ?_, ?_⟩
  · simp [_object_delete, isNoSuchKey]
  · cases h : removeOutcome (pathJoin basepath ident) with
    | ok u => simp [_object_delete, h]
    | error e2 => simp [_object_delete, h]

/-- C4: `_file_retrieve` and `_object_stat` return an absent result and append
nothing when the underlying call raises `NoSuchKey`; any other exception is
rendered and appended (the result still absent); a successful call returns the
metadata with the error list untouched. -/
theorem retrieve_stat_not_found_semantics (so : StoredObject)
    (o : MinioObject) (e : Exc) (errors : List String) :
    _file_retrieve (Except.ok so) errors = (some so, errors)
    ∧ _file_retrieve (Except.error e) errors
      = (none, if isNoSuchKey e then errors else errors ++ [excMsg e])
    ∧ _file_retrieve (Except.error ⟨some "NoSuchKey"⟩) errors
      = (none, errors)
    ∧ _object_stat (Except.ok o) errors = (some o, errors)
    ∧ _object_stat (Except.error e) errors
      = (none, if isNoSuchKey e then errors else errors ++ [excMsg e])
    ∧ _object_stat (Except.error ⟨some "NoSuchKey"⟩) errors
      = (none, errors) := by
  refine ⟨rfl, rfl, ?_, rfl, rfl, ?_⟩ <;>
    simp [_file_retrieve, _object_stat, isNoSuchKey]

/-- C9: `_object_delete` with `identifier = none` (the folder-deletion form)
always returns `false`, for every listing outcome, per-object remove outcome
and initial error list — the result variable is never assigned in the folder
branch, even when the traversal deleted every object without appending any
error. -/
theorem object_delete_folder_always_false (basepath : String)
    (listOutcome : Except Exc (List MinioObject))
    (removeOutcome : String → Except Exc Unit) (errors : List String) :
    (_object_delete basepath none listOutcome removeOutcome errors).1
      = false := rfl

/-- C3: on a prefix whose recursive listing yields the descriptors `objs`,
`__folder_delete` issues exactly one remove call per descriptor, in listing
order, and appends to the error list exactly one rendered entry per remove
call that raised a non-`NoSuchKey` exception; `NoSuchKey` failures append
nothing, and no failure halts the traversal. -/
theorem folder_delete_traversal (removeOutcome : String → Except Exc Unit)
    (objs : List MinioObject) (errors : List String) :
    __folder_delete (Except.ok objs) removeOutcome errors
      = (errors ++ objs.filterMap (removeFailureMsg removeOutcome),
         objs.map (fun o => o.object_name))
    ∧ (objs.map (fun o => o.object_name)).length = objs.length := by
  constructor
  · simp [__folder_delete, _objects_list, folderRemoveLoop_spec]
  · simp

/-- C5: storing a value through `_object_store` (serialize with `dump`,
upload) and then retrieving at the same bucket, base path and identifier
through `_object_retrieve` (download, deserialize with `load`) returns the
original value, provided the deserialization inverts the serialization (the
contract of `pickle.dump`/`pickle.load`) and no intervening delete or
overwrite occurred (the retrieval runs on the state the store produced). -/
theorem tagged_value_round_trip {α : Type} (dump : α → List Nat)
    (load : List Nat → Option α) (st : S3State)
    (bucket basepath identifier : String) (v : α)
    (tags : Option (List (String × String))) (errors errors2 : List String)
    (hround : load (dump v) = some v) :
    (_object_store st bucket basepath identifier dump v tags
        (Except.ok ()) errors).result = true
    ∧ _object_retrieve
        (_object_store st bucket basepath identifier dump v tags
          (Except.ok ()) errors).state
        bucket basepath identifier load errors2 = (some v, errors2) := by
  constructor
  · rfl
  · simp [_object_store, _file_store, _object_retrieve, fgetOutcome,
      _file_retrieve, stPut, stGet, hround]

/-- Witness for C5 at a concrete serializer and value. -/
theorem tagged_value_round_trip_witness :
    (_object_store ([] : S3State) "docs" "reports" "q1.bin"
        (fun n : Nat => [n]) 42 none (Except.ok ()) []).result = true
    ∧ _object_retrieve
        (_object_store ([] : S3State) "docs" "reports" "q1.bin"
          (fun n : Nat => [n]) 42 none (Except.ok ()) []).state
        "docs" "reports" "q1.bin" (fun l => l.head?) []
      = (some 42, []) :=
  tagged_value_round_trip (fun n => [n]) (fun l => l.head?) []
    "docs" "reports" "q1.bin" 42 none [] [] rfl

/-- C6: storing a file with a non-empty tag map attaches, for every key, the
`unidecode`-normalized value (never the original), and tag retrieval on the
resulting state returns exactly that stripped map; `unidecode` turns "café"
into "cafe"; storing with a `None` or empty tag map attaches no tags. -/
theorem tag_normalization (st : S3State)
    (bucket basepath identifier : String) (fileData : List Nat)
    (mimetype : String) (k v : String) (rest : List (String × String))
    (errors errors2 : List String) :
    stGet (_file_store st bucket basepath identifier fileData mimetype
        (some ((k, v) :: rest)) (Except.ok ()) errors).2.1
        (bucket, pathJoin basepath identifier)
      = some ⟨fileData, mimetype,
          some (((k, v) :: rest).map (fun kv => (kv.1, unidecode kv.2)))⟩
    ∧ _object_tags_retrieve
        (tagsOutcomeOf
          (_file_store st bucket basepath identifier fileData mimetype
            (some ((k, v) :: rest)) (Except.ok ()) errors).2.1
          (bucket, pathJoin basepath identifier)) errors2
      = (some (((k, v) :: rest).map (fun kv => (kv.1, unidecode kv.2))),
         errors2)
    ∧ unidecode "café" = "cafe"
    ∧ stGet (_file_store st bucket basepath identifier fileData mimetype
        none (Except.ok ()) errors).2.1 (bucket, pathJoin basepath identifier)
      = some ⟨fileData, mimetype, none⟩
    ∧ stGet (_file_store st bucket basepath identifier fileData mimetype
        (some []) (Except.ok ()) errors).2.1
        (bucket, pathJoin basepath identifier)
      = some ⟨fileData, mimetype, none⟩ := by
  refine ⟨?_, ?_, ?_, ?_, ?_⟩
  · simp [_file_store, stPut, stGet]
  · simp [_file_store, tagsOutcomeOf, _object_tags_retrieve, stPut, stGet]
  · decide
  · simp [_file_store, stPut, stGet]
  · simp [_file_store, stPut, stGet]

/-- C7: in `_object_store`, the temporary serialization file is deleted
exactly when the upload reported no error: on a successful upload the result
is `true`, the caller's error list is untouched and the temp file is gone;
on a failed upload the result is `false`, the upload's rendered error is
extended onto the caller's list and the temp file is left on disk. -/
theorem temp_file_cleanup {α : Type} (st : S3State)
    (bucket basepath identifier : String) (dump : α → List Nat) (v : α)
    (tags : Option (List (String × String))) (e : Exc)
    (fput : Except Exc Unit) (errors : List String) :
    (_object_store st bucket basepath identifier dump v tags
        (Except.ok ()) errors).result = true
    ∧ (_object_store st bucket basepath identifier dump v tags
        (Except.ok ()) errors).temp_file_on_disk = false
    ∧ (_object_store st bucket basepath identifier dump v tags
        (Except.ok ()) errors).errors = errors
    ∧ (_object_store st bucket basepath identifier dump v tags
        (Except.error e) errors).result = false
    ∧ (_object_store st bucket basepath identifier dump v tags
        (Except.error e) errors).temp_file_on_disk = true
    ∧ (_object_store st bucket basepath identifier dump v tags
        (Except.error e) errors).errors = errors ++ [excMsg e]
    ∧ ((_object_store st bucket basepath identifier dump v tags
          fput errors).temp_file_on_disk = false
        ↔ (_object_store st bucket basepath identifier dump v tags
            fput errors).result = true) := by
  refine ⟨rfl, rfl, rfl, rfl, rfl, rfl, ?_⟩
  cases fput <;> simp [_object_store, _file_store]

/-- C10: every modelled operation of this layer only appends to the
caller-supplied error list — the initial list is a prefix of the final list,
for every outcome of the underlying client calls — and a fully successful
call appends nothing. -/
theorem error_list_append_only {α : Type}
    (accessOutcome provisionOutcome fput : Except Exc Unit)
    (statOutcome : Except Exc MinioObject)
    (fgetO : Except Exc StoredObject)
    (listOutcome : Except Exc (List MinioObject))
    (tagsOutcome : Except Exc (Option (List (String × String))))
    (removeOutcome : String → Except Exc Unit)
    (st : S3State) (bucket basepath ident : String)
    (identifier : Option String)
    (dump : α → List Nat) (load : List Nat → Option α) (v : α)
    (fileData : List Nat) (mimetype : String)
    (tags : Option (List (String × String)))
    (so : StoredObject) (errors : List String) :
    errors <+: (_access accessOutcome errors).2
    ∧ errors <+: (_startup accessOutcome provisionOutcome errors).2
    ∧ errors <+: (_file_store st bucket basepath ident fileData mimetype
        tags fput errors).2.2
    ∧ errors <+: (_file_retrieve fgetO errors).2
    ∧ errors <+: (_object_stat statOutcome errors).2
    ∧ errors <+: (_objects_list listOutcome errors).2
    ∧ errors <+: (_object_tags_retrieve tagsOutcome errors).2
    ∧ errors <+: (_object_store st bucket basepath ident dump v tags
        fput errors).errors
    ∧ errors <+: (_object_retrieve st bucket basepath ident load errors).2
    ∧ errors <+: (_object_delete basepath identifier listOutcome
        removeOutcome errors).2
    ∧ (_access (Except.ok ()) errors).2 = errors
    ∧ (_startup (Except.ok ()) (Except.ok ()) errors).2 = errors
    ∧ (_file_store st bucket basepath ident fileData mimetype tags
        (Except.ok ()) errors).2.2 = errors
    ∧ (_file_retrieve (Except.ok so) errors).2 = errors
    ∧ (_object_store st bucket basepath ident dump v tags
        (Except.ok ()) errors).errors = errors
    ∧ (_object_delete basepath (some ident) listOutcome
        (fun _ => Except.ok ()) errors).2 = errors := by
  refine ⟨?_, ?_, ?_, ?_, ?_, ?_, ?_, ?_, ?_, ?_, rfl, rfl, rfl, rfl, rfl, rfl⟩
  · cases accessOutcome <;> simp [_access]
  · cases accessOutcome <;> cases provisionOutcome <;> simp [_access, _startup]
  · cases fput <;> simp [_file_store]
  · cases fgetO with
    | ok so2 => simp [_file_retrieve]
    | error e => cases hn : isNoSuchKey e <;> simp [_file_retrieve, hn]
  · cases statOutcome with
    | ok o => simp [_object_stat]
    | error e => cases hn : isNoSuchKey e <;> simp [_object_stat, hn]
  · cases listOutcome <;> simp [_objects_list]
  · cases tagsOutcome with
    | ok t => simp [_object_tags_retrieve]
    | error e => cases hn : isNoSuchKey e <;> simp [_object_tags_retrieve, hn]
  · cases fput <;> simp [_object_store, _file_store]
  · cases h : stGet st (bucket, pathJoin basepath ident) <;>
      simp [_object_retrieve, fgetOutcome, _file_retrieve, h, isNoSuchKey]
  · cases identifier with
    | none =>
        cases listOutcome with
        | ok l =>
            simp [_object_delete, __folder_delete, _objects_list,
              folderRemoveLoop_spec]
        | error e =>
            simp [_object_delete, __folder_delete, _objects_list]
    | some i =>
        cases h : removeOutcome (pathJoin basepath i) with
        | ok u => simp [_object_delete, h]
        | error e => cases hn : isNoSuchKey e <;> simp [_object_delete, h, hn]

end PyPomesStore
